import Mathlib

/-!
Shallow embedding of `src/bridge/resolve_bridge.py` (class `ResolveBridge`).

Modelling conventions:
* Opaque DaVinci Resolve object handles (project, media pool, timeline) are
  `Nat` identifiers; the behaviour of every external accessor is supplied by
  an `Oracle` record, one field per DaVinci Resolve API call used by the
  bridge.  A call that raises a Python exception is modelled as
  `Except.error msg` (with `msg` standing for `str(e)`); a call that returns
  normally is `Except.ok v`.  `None` returns are `Option.none` inside `ok`.
* `self.resolve` and `self.project_manager` are only ever used for their
  truthiness (plus `OpenPage`, which lives on the oracle), so they are
  modelled as `Bool` fields of the bridge state.
* The module-level flag `RESOLVE_AVAILABLE` is the `avail` parameter of
  `callApi`.
* A Python dict `{"result": v}` is `APIResult.result v`; `{"error": m}` is
  `APIResult.error m` (the `traceback` key added by `call_api`'s `except`
  clause carries no further decision-relevant information and is dropped).
* Each handler returns `(Except String APIResult) × BridgeState × List ExtCall`:
  the `Except` layer models a Python exception escaping the handler, the
  state is `self` after the handler (mutations before a raise persist, as
  they do on a Python object), and the trace lists the mutating external
  calls the handler issued, in order (issued calls are recorded even when
  they report failure or raise).
* `ImportMedia` returns a clip list and `CreateBin` a bin object, each used
  only for truthiness, so the oracle returns their truthiness as `Bool`.
-/

namespace ResolveBridge

abbrev ProjRef := Nat
abbrev PoolRef := Nat
abbrev TlRef := Nat

/-- The behaviour of the external DaVinci Resolve scripting API during one
call: one field per API method the bridge invokes. -/
structure Oracle where
  getCurrentProject : Except String (Option ProjRef)
  getMediaPool : ProjRef → Except String (Option PoolRef)
  getCurrentTimeline : ProjRef → Except String (Option TlRef)
  projGetName : ProjRef → Except String String
  getTimelineCount : ProjRef → Except String Nat
  getTimelineByIndex : ProjRef → Nat → Except String (Option TlRef)
  deleteTimeline : ProjRef → TlRef → Except String Bool
  setCurrentTimeline : ProjRef → TlRef → Except String Bool
  createProject : String → Except String (Option ProjRef)
  loadProject : String → Except String (Option ProjRef)
  saveProject : Except String Bool
  closeProject : Option ProjRef → Except String Bool
  createEmptyTimeline : PoolRef → String → Except String (Option TlRef)
  importMedia : PoolRef → String → Except String Bool
  createBin : PoolRef → String → Except String Bool
  openPage : String → Except String Bool
  tlGetName : TlRef → Except String String

/-- The mutable fields of the `ResolveBridge` object (`self`). -/
structure BridgeState where
  resolve : Bool
  projectManager : Bool
  project : Option ProjRef
  mediaPool : Option PoolRef
  timeline : Option TlRef
deriving DecidableEq, Repr

/-- A JSON-ish value as returned inside `{"result": ...}`. -/
inductive Value where
  | str (s : String)
  | bool (b : Bool)
  | null
  | list (xs : List String)
deriving DecidableEq, Repr

/-- The dict returned by `call_api` and the handlers: either
`{"result": v}` or `{"error": m}`. -/
inductive APIResult where
  | result (v : Value)
  | error (msg : String)
deriving DecidableEq, Repr

/-- An error dict is surfaced to the MCP client as `is_error = true`. -/
def APIResult.isError : APIResult → Bool
  | .result _ => false
  | .error _ => true

/-- A mutating call issued against the external application. -/
inductive ExtCall where
  | createProject (name : String)
  | loadProject (name : String)
  | saveProject
  | closeProject (p : Option ProjRef)
  | deleteTimeline (p : ProjRef) (t : TlRef)
  | setCurrentTimeline (p : ProjRef) (t : TlRef)
  | createEmptyTimeline (pool : PoolRef) (name : String)
  | importMedia (pool : PoolRef) (path : String)
  | createBin (pool : PoolRef) (name : String)
  | openPage (page : String)
deriving DecidableEq, Repr

/-- The `args` dict: a lookup from key to string value (`args.get(k, "")`
becomes `(args k).getD ""`). -/
def Args := String → Option String

/-- Outcome of a handler: possibly-raising result, the bridge state after
the handler ran, and the trace of issued mutating external calls. -/
abbrev HOut := Except String APIResult × BridgeState × List ExtCall

/-- `_refresh_current_objects` (lines 79-88): inside `try`, if the project
manager is truthy, overwrite `self.project` with the current project; only
when that is truthy also overwrite `self.media_pool` and `self.timeline`.
Any exception is swallowed (`except: pass`), keeping the assignments made
before the raise. -/
def refreshCurrentObjects (o : Oracle) (s : BridgeState) : BridgeState :=
  if s.projectManager then
    match o.getCurrentProject with
    | .error _ => s
    | .ok p =>
      let s1 := { s with project := p }
      match p with
      | none => s1
      | some pr =>
        match o.getMediaPool pr with
        | .error _ => s1
        | .ok mp =>
          let s2 := { s1 with mediaPool := mp }
          match o.getCurrentTimeline pr with
          | .error _ => s2
          | .ok tl => { s2 with timeline := tl }
  else s

/-- The `for i in range(1, timeline_count + 1)` scan shared by
`timeline_delete` and `timeline_set_current` (lines 176-178, 188-190):
walk the index list, skip falsy timelines, and stop at the first timeline
whose `GetName()` equals `name`; a raising accessor propagates.  The scan
itself issues no mutating call and touches no state, so factoring it out of
the loop body is behaviour-preserving. -/
def scanTimelines (o : Oracle) (p : ProjRef) (name : String) :
    List Nat → Except String (Option TlRef)
  | [] => .ok none
  | i :: rest =>
    match o.getTimelineByIndex p i with
    | .error e => .error e
    | .ok none => scanTimelines o p name rest
    | .ok (some t) =>
      match o.tlGetName t with
      | .error e => .error e
      | .ok n => if n = name then .ok (some t) else scanTimelines o p name rest

/-- The name-collecting loop of `get_timelines` (lines 103-109): falsy
timelines are skipped, names are appended in index order. -/
def collectTimelines (o : Oracle) (p : ProjRef) :
    List Nat → Except String (List String)
  | [] => .ok []
  | i :: rest =>
    match o.getTimelineByIndex p i with
    | .error e => .error e
    | .ok none => collectTimelines o p rest
    | .ok (some t) =>
      match o.tlGetName t with
      | .error e => .error e
      | .ok n =>
        match collectTimelines o p rest with
        | .error e => .error e
        | .ok ns => .ok (n :: ns)

/-- `_handle_general_method` (lines 90-118). -/
def handleGeneralMethod (o : Oracle) (s : BridgeState) (method : String)
    (args : Args) : HOut :=
  if method = "is_running" then
    (.ok (.result (.bool s.resolve)), s, [])
  else if method = "get_current_project_name" then
    match s.project with
    | some p =>
      match o.projGetName p with
      | .error e => (.error e, s, [])
      | .ok n => (.ok (.result (.str n)), s, [])
    | none => (.ok (.result .null), s, [])
  else if method = "get_timelines" then
    match s.project with
    | some p =>
      match o.getTimelineCount p with
      | .error e => (.error e, s, [])
      | .ok count =>
        match collectTimelines o p (List.range' 1 count) with
        | .error e => (.error e, s, [])
        | .ok names => (.ok (.result (.list names)), s, [])
    | none => (.ok (.result (.list [])), s, [])
  else if method = "switch_page" then
    let page := (args "page").getD ""
    match o.openPage page with
    | .error e => (.error e, s, [.openPage page])
    | .ok b => (.ok (.result (.bool b)), s, [.openPage page])
  else
    (.ok (.error ("Unknown general method: " ++ method)), s, [])

/-- `_handle_project_method` (lines 120-159). -/
def handleProjectMethod (o : Oracle) (s : BridgeState) (method : String)
    (args : Args) : HOut :=
  if method = "project_create" then
    let name := (args "name").getD ""
    if s.projectManager then
      match o.createProject name with
      | .error e => (.error e, s, [.createProject name])
      | .ok (some p) =>
        match o.getMediaPool p with
        | .error e => (.error e, { s with project := some p }, [.createProject name])
        | .ok mp =>
          (.ok (.result (.str ("Created project '" ++ name ++ "'"))),
            { s with project := some p, mediaPool := mp }, [.createProject name])
      | .ok none =>
        (.ok (.error ("Failed to create project '" ++ name ++ "'")), s,
          [.createProject name])
    else
      (.ok (.error ("Failed to create project '" ++ name ++ "'")), s, [])
  else if method = "project_open" then
    let name := (args "name").getD ""
    if s.projectManager then
      match o.loadProject name with
      | .error e => (.error e, s, [.loadProject name])
      | .ok (some p) =>
        match o.getMediaPool p with
        | .error e => (.error e, { s with project := some p }, [.loadProject name])
        | .ok mp =>
          (.ok (.result (.str ("Opened project '" ++ name ++ "'"))),
            { s with project := some p, mediaPool := mp }, [.loadProject name])
      | .ok none =>
        (.ok (.error ("Failed to open project '" ++ name ++ "'")), s,
          [.loadProject name])
    else
      (.ok (.error ("Failed to open project '" ++ name ++ "'")), s, [])
  else if method = "project_save" then
    if s.projectManager then
      match o.saveProject with
      | .error e => (.error e, s, [.saveProject])
      | .ok b => (.ok (.result (.bool b)), s, [.saveProject])
    else
      (.ok (.error "No project manager available"), s, [])
  else if method = "project_close" then
    if s.projectManager then
      match o.closeProject s.project with
      | .error e => (.error e, s, [.closeProject s.project])
      | .ok true =>
        (.ok (.result (.bool true)),
          { s with project := none, mediaPool := none, timeline := none },
          [.closeProject s.project])
      | .ok false => (.ok (.result (.bool false)), s, [.closeProject s.project])
    else
      (.ok (.error "No project manager available"), s, [])
  else
    (.ok (.error ("Unknown project method: " ++ method)), s, [])

/-- `_handle_timeline_method` (lines 161-198). -/
def handleTimelineMethod (o : Oracle) (s : BridgeState) (method : String)
    (args : Args) : HOut :=
  if method = "timeline_create" then
    let name := (args "name").getD ""
    match s.mediaPool with
    | some mp =>
      match o.createEmptyTimeline mp name with
      | .error e => (.error e, s, [.createEmptyTimeline mp name])
      | .ok (some _) =>
        (.ok (.result (.str ("Created timeline '" ++ name ++ "'"))), s,
          [.createEmptyTimeline mp name])
      | .ok none =>
        (.ok (.error ("Failed to create timeline '" ++ name ++ "'")), s,
          [.createEmptyTimeline mp name])
    | none =>
      (.ok (.error ("Failed to create timeline '" ++ name ++ "'")), s, [])
  else if method = "timeline_delete" then
    let name := (args "name").getD ""
    match s.project with
    | some p =>
      match o.getTimelineCount p with
      | .error e => (.error e, s, [])
      | .ok count =>
        match scanTimelines o p name (List.range' 1 count) with
        | .error e => (.error e, s, [])
        | .ok none =>
          (.ok (.error ("Timeline '" ++ name ++ "' not found")), s, [])
        | .ok (some t) =>
          match o.deleteTimeline p t with
          | .error e => (.error e, s, [.deleteTimeline p t])
          | .ok b => (.ok (.result (.bool b)), s, [.deleteTimeline p t])
    | none =>
      (.ok (.error ("Timeline '" ++ name ++ "' not found")), s, [])
  else if method = "timeline_set_current" then
    let name := (args "name").getD ""
    match s.project with
    | some p =>
      match o.getTimelineCount p with
      | .error e => (.error e, s, [])
      | .ok count =>
        match scanTimelines o p name (List.range' 1 count) with
        | .error e => (.error e, s, [])
        | .ok none =>
          (.ok (.error ("Timeline '" ++ name ++ "' not found")), s, [])
        | .ok (some t) =>
          match o.setCurrentTimeline p t with
          | .error e => (.error e, s, [.setCurrentTimeline p t])
          | .ok b =>
            (.ok (.result (.bool b)),
              if b then { s with timeline := some t } else s,
              [.setCurrentTimeline p t])
    | none =>
      (.ok (.error ("Timeline '" ++ name ++ "' not found")), s, [])
  else
    (.ok (.error ("Unknown timeline method: " ++ method)), s, [])

/-- `_handle_media_method` (lines 200-219). -/
def handleMediaMethod (o : Oracle) (s : BridgeState) (method : String)
    (args : Args) : HOut :=
  if method = "media_import" then
    let filePath := (args "file_path").getD ""
    match s.mediaPool with
    | some mp =>
      match o.importMedia mp filePath with
      | .error e => (.error e, s, [.importMedia mp filePath])
      | .ok true =>
        (.ok (.result (.str ("Imported media: " ++ filePath))), s,
          [.importMedia mp filePath])
      | .ok false =>
        (.ok (.error ("Failed to import media: " ++ filePath)), s,
          [.importMedia mp filePath])
    | none =>
      (.ok (.error ("Failed to import media: " ++ filePath)), s, [])
  else if method = "media_create_bin" then
    let name := (args "name").getD ""
    match s.mediaPool with
    | some mp =>
      match o.createBin mp name with
      | .error e => (.error e, s, [.createBin mp name])
      | .ok true =>
        (.ok (.result (.str ("Created bin '" ++ name ++ "'"))), s,
          [.createBin mp name])
      | .ok false =>
        (.ok (.error ("Failed to create bin '" ++ name ++ "'")), s,
          [.createBin mp name])
    | none =>
      (.ok (.error ("Failed to create bin '" ++ name ++ "'")), s, [])
  else
    (.ok (.error ("Unknown media method: " ++ method)), s, [])

/-- `_handle_color_method` (lines 221-224): fixed stub. -/
def handleColorMethod (_o : Oracle) (s : BridgeState) (method : String)
    (_args : Args) : HOut :=
  (.ok (.error ("Color method not implemented: " ++ method)), s, [])

/-- `_handle_render_method` (lines 226-229): fixed stub. -/
def handleRenderMethod (_o : Oracle) (s : BridgeState) (method : String)
    (_args : Args) : HOut :=
  (.ok (.error ("Render method not implemented: " ++ method)), s, [])

/-- Python's `m.startswith(p)`, as a test on the character lists. -/
def startswith (m p : String) : Bool := p.data.isPrefixOf m.data

/-- The `if/elif` routing chain of `call_api` (lines 62-74). -/
def dispatchMethod (o : Oracle) (s : BridgeState) (method : String)
    (args : Args) : HOut :=
  if startswith method "project_" then handleProjectMethod o s method args
  else if startswith method "timeline_" then handleTimelineMethod o s method args
  else if startswith method "media_" then handleMediaMethod o s method args
  else if startswith method "color_" then handleColorMethod o s method args
  else if startswith method "render_" then handleRenderMethod o s method args
  else handleGeneralMethod o s method args

/-- `call_api` (lines 41-77): availability guards, per-call refresh, routing,
and the outer `try/except` converting an escaped exception `e` into
`{"error": f"API call failed: {str(e)}"}`. -/
def callApi (avail : Bool) (o : Oracle) (s : BridgeState) (method : String)
    (args : Args) : APIResult × BridgeState × List ExtCall :=
  if !avail then (.error "DaVinci Resolve Python API not available", s, [])
  else if !s.resolve then (.error "DaVinci Resolve is not running", s, [])
  else
    let s1 := refreshCurrentObjects o s
    match dispatchMethod o s1 method args with
    | (.ok r, s2, tr) => (r, s2, tr)
    | (.error e, s2, tr) => (.error ("API call failed: " ++ e), s2, tr)

/-! ### Basic facts about `startswith` and the bridge functions -/

/-- If `p`'s characters begin with `c`, any string with prefix `p` also
begins with `c`. -/
theorem startswith_head {m p : String} {c : Char} {l : List Char}
    (hp : p.data = c :: l) (h : startswith m p = true) :
    ∃ bs, m.data = c :: bs := by
  unfold startswith at h
  rw [hp] at h
  cases hm : m.data with
  | nil => rw [hm] at h; simp [List.isPrefixOf] at h
  | cons b bs =>
    rw [hm] at h
    simp [List.isPrefixOf] at h
    exact ⟨bs, by rw [h.1]⟩

/-- Two prefixes beginning with different characters cannot both match. -/
theorem startswith_disjoint {m p q : String} {a b : Char}
    {u v : List Char} (hp : p.data = a :: u) (hq : q.data = b :: v)
    (hne : a ≠ b) (h : startswith m p = true) : startswith m q = false := by
  cases hbq : startswith m q with
  | false => rfl
  | true =>
    obtain ⟨bs₁, h₁⟩ := startswith_head hp h
    obtain ⟨bs₂, h₂⟩ := startswith_head hq hbq
    rw [h₁] at h₂
    exact absurd (List.cons.injEq .. ▸ h₂).1 hne

/-- Neither `resolve` nor `project_manager` is touched by the refresh. -/
theorem refresh_frame (o : Oracle) (s : BridgeState) :
    (refreshCurrentObjects o s).resolve = s.resolve ∧
    (refreshCurrentObjects o s).projectManager = s.projectManager := by
  unfold refreshCurrentObjects
  repeat' split
  all_goals exact ⟨rfl, rfl⟩

/-! ### Concrete fixtures for witnesses and counterexamples -/

/-- An oracle whose every call succeeds with an inert value. -/
def inertOracle : Oracle where
  getCurrentProject := .ok none
  getMediaPool := fun _ => .ok none
  getCurrentTimeline := fun _ => .ok none
  projGetName := fun _ => .ok ""
  getTimelineCount := fun _ => .ok 0
  getTimelineByIndex := fun _ _ => .ok none
  deleteTimeline := fun _ _ => .ok false
  setCurrentTimeline := fun _ _ => .ok false
  createProject := fun _ => .ok none
  loadProject := fun _ => .ok none
  saveProject := .ok false
  closeProject := fun _ => .ok false
  createEmptyTimeline := fun _ _ => .ok none
  importMedia := fun _ _ => .ok false
  createBin := fun _ _ => .ok false
  openPage := fun _ => .ok false
  tlGetName := fun _ => .ok ""

/-- An empty `args` dict. -/
def emptyArgs : Args := fun _ => none

/-- `{"name": v}`. -/
def nameArgs (v : String) : Args := fun k => if k = "name" then some v else none

/-- The bridge right after a connection where nothing was open. -/
def freshState : BridgeState :=
  { resolve := true, projectManager := true, project := none,
    mediaPool := none, timeline := none }

/-- The bridge with project, media pool and timeline all cached. -/
def fullState : BridgeState :=
  { resolve := true, projectManager := true, project := some 1,
    mediaPool := some 1, timeline := some 1 }

/-- External application with project 1 open (media pool 1, timeline 1). -/
def projOracle : Oracle :=
  { inertOracle with
      getCurrentProject := .ok (some 1)
      getMediaPool := fun _ => .ok (some 1)
      getCurrentTimeline := fun _ => .ok (some 1) }

/-- External application after the project was closed out-of-band: no
current project, but the stale media-pool handle still accepts calls. -/
def goneOracle : Oracle :=
  { inertOracle with
      getCurrentProject := .ok none
      createEmptyTimeline := fun _ _ => .ok (some 9) }

/-- External application whose current-project accessor raises. -/
def raiseOracle : Oracle :=
  { inertOracle with getCurrentProject := .error "boom" }

/-- External application where closing the project reports success. -/
def closeOracle : Oracle :=
  { inertOracle with closeProject := fun _ => .ok true }

/-- External application whose save call raises. -/
def saveRaiseOracle : Oracle :=
  { inertOracle with saveProject := .error "boom" }

/-! ### C1 -/

/-- Claim C1 is false on the code: a state with `current_project` absent
but `current_media_pool` (and `current_timeline`) still present is
reachable through `call_api` — the refresh, on finding no current project,
overwrites only `self.project` and leaves the other two fields stale
(lines 82-86), so after one call with a project open and a second call
after the project disappeared out-of-band, the invariant is violated. -/
theorem C1_counterexample :
    ((callApi true goneOracle
        (callApi true projOracle freshState "is_running" emptyArgs).2.1
        "is_running" emptyArgs).2.1.project = none) ∧
    ((callApi true goneOracle
        (callApi true projOracle freshState "is_running" emptyArgs).2.1
        "is_running" emptyArgs).2.1.mediaPool = some 1) ∧
    ((callApi true goneOracle
        (callApi true projOracle freshState "is_running" emptyArgs).2.1
        "is_running" emptyArgs).2.1.timeline = some 1) := by decide

/-- Claim C1 (amended): the per-call refresh, on finding no current
project, sets only `current_project` to absent and leaves
`current_media_pool` and `current_timeline` unchanged; on an exception it
leaves every field as it was at the point of failure; `project_close` on
reported success does clear all three fields to absent.  Consequently the
spec's dependent-state invariant does not hold in every reachable state. -/
theorem C1_amended_behavior (o : Oracle) (s : BridgeState) (args : Args) :
    (o.getCurrentProject = .ok none → s.projectManager = true →
      refreshCurrentObjects o s = { s with project := none }) ∧
    (∀ e, o.getCurrentProject = .error e → refreshCurrentObjects o s = s) ∧
    (s.projectManager = true → o.closeProject s.project = .ok true →
      handleProjectMethod o s "project_close" args =
        (.ok (.result (.bool true)),
         { s with project := none, mediaPool := none, timeline := none },
         [.closeProject s.project])) := by
  refine ⟨fun h1 h2 => ?_, fun e h1 => ?_, fun h1 h2 => ?_⟩
  · simp [refreshCurrentObjects, h1, h2]
  · simp [refreshCurrentObjects, h1]
  · simp [handleProjectMethod, h1, h2]

/-- Concrete instantiation of `C1_amended_behavior`. -/
theorem C1_amended_witness :
    (refreshCurrentObjects goneOracle fullState =
      { fullState with project := none }) ∧
    (refreshCurrentObjects raiseOracle fullState = fullState) ∧
    (handleProjectMethod closeOracle fullState "project_close" emptyArgs =
      (.ok (.result (.bool true)),
       { fullState with project := none, mediaPool := none, timeline := none },
       [.closeProject (some 1)])) :=
  ⟨(C1_amended_behavior goneOracle fullState emptyArgs).1 rfl rfl,
   (C1_amended_behavior raiseOracle fullState emptyArgs).2.1 "boom" rfl,
   (C1_amended_behavior closeOracle fullState emptyArgs).2.2 rfl rfl⟩

/-! ### C2 -/

/-- A handler outcome that reports a tool-level error, leaves the bridge
state untouched and issues no mutating external call. -/
def failsCleanly (out : HOut) (s : BridgeState) : Prop :=
  (∃ m, out.1 = .ok (.error m)) ∧ out.2.1 = s ∧ out.2.2 = []

/-- Claim C2 is false on the code: after one call with a project open and a
second call after the project disappeared out-of-band, `current_project` is
absent at dispatch time (the refreshed state), yet `timeline_create`
succeeds and issues the mutating `CreateEmptyTimeline` call through the
stale media-pool handle, because the handler guards on `self.media_pool`
(line 165), which the refresh never cleared. -/
theorem C2_counterexample :
    ((refreshCurrentObjects goneOracle
        (callApi true projOracle freshState "is_running" emptyArgs).2.1).project
      = none) ∧
    ((callApi true goneOracle
        (callApi true projOracle freshState "is_running" emptyArgs).2.1
        "timeline_create" (nameArgs "T")).1 =
      .result (.str "Created timeline 'T'")) ∧
    ((callApi true goneOracle
        (callApi true projOracle freshState "is_running" emptyArgs).2.1
        "timeline_create" (nameArgs "T")).2.2 =
      [.createEmptyTimeline 1 "T"]) := by decide

/-- Claim C2 (amended): the `timeline_*` and `media_*` handlers guard on
the specific context field they use — `timeline_delete` and
`timeline_set_current` on `current_project`, `timeline_create`,
`media_import` and `media_create_bin` on `current_media_pool`.  Whenever
both `current_project` and `current_media_pool` are absent at dispatch
time, every `timeline_*` and `media_*` method returns an error outcome,
leaves the state unchanged and performs no mutating external call; with
only `current_project` absent a stale `current_media_pool` can still be
used (see the counterexample). -/
theorem C2_amended_no_mutation (o : Oracle) (s : BridgeState)
    (method : String) (args : Args)
    (hp : s.project = none) (hmp : s.mediaPool = none)
    (h : startswith method "timeline_" = true ∨
         startswith method "media_" = true) :
    failsCleanly (dispatchMethod o s method args) s := by
  rcases h with h | h
  · have hpr : startswith method "project_" = false :=
      startswith_disjoint (a := 't')
        (u := ['i', 'm', 'e', 'l', 'i', 'n', 'e', '_'])
        (b := 'p') (v := ['r', 'o', 'j', 'e', 'c', 't', '_'])
        rfl rfl (by decide) h
    by_cases h1 : method = "timeline_create"
    · subst h1
      simp [dispatchMethod, hpr, h, handleTimelineMethod, hmp, failsCleanly]
    · by_cases h2 : method = "timeline_delete"
      · subst h2
        simp [dispatchMethod, hpr, h, handleTimelineMethod, hp, failsCleanly]
      · by_cases h3 : method = "timeline_set_current"
        · subst h3
          simp [dispatchMethod, hpr, h, handleTimelineMethod, hp, failsCleanly]
        · simp [dispatchMethod, hpr, h, handleTimelineMethod, h1, h2, h3,
            failsCleanly]
  · have hpr : startswith method "project_" = false :=
      startswith_disjoint (a := 'm') (u := ['e', 'd', 'i', 'a', '_'])
        (b := 'p') (v := ['r', 'o', 'j', 'e', 'c', 't', '_'])
        rfl rfl (by decide) h
    have htl : startswith method "timeline_" = false :=
      startswith_disjoint (a := 'm') (u := ['e', 'd', 'i', 'a', '_'])
        (b := 't') (v := ['i', 'm', 'e', 'l', 'i', 'n', 'e', '_'])
        rfl rfl (by decide) h
    by_cases h1 : method = "media_import"
    · subst h1
      simp [dispatchMethod, hpr, htl, h, handleMediaMethod, hmp, failsCleanly]
    · by_cases h2 : method = "media_create_bin"
      · subst h2
        simp [dispatchMethod, hpr, htl, h, handleMediaMethod, hmp, failsCleanly]
      · simp [dispatchMethod, hpr, htl, h, handleMediaMethod, h1, h2,
          failsCleanly]

/-- Concrete instantiation of `C2_amended_no_mutation`. -/
theorem C2_amended_witness :
    failsCleanly (dispatchMethod inertOracle freshState "timeline_create"
      (nameArgs "A")) freshState :=
  C2_amended_no_mutation inertOracle freshState "timeline_create"
    (nameArgs "A") rfl rfl (Or.inl (by decide))

/-! ### C3 -/

/-- Claim C3 is false on the code in its refresh clause: an exception
raised by the External Capability Handle during the per-call refresh is
swallowed by `_refresh_current_objects`'s own `except: pass` (line 87-88)
and is NOT converted into an error result — here the current-project
accessor raises `boom`, yet `call_api` returns the plain success
`{"result": True}` for `is_running`. -/
theorem C3_counterexample :
    callApi true raiseOracle freshState "is_running" emptyArgs =
      (.result (.bool true), freshState, []) ∧
    raiseOracle.getCurrentProject = .error "boom" := ⟨rfl, rfl⟩

/-- Claim C3 (amended): `call_api` is total; an exception raised during
the refresh is caught inside the refresh and swallowed (the call proceeds
with the possibly stale fields), while an exception escaping a handler is
caught at the `call_api` boundary and converted into
`{"error": "API call failed: <description>"}`, preserving the state the
handler left behind; `call_api` never propagates an exception. -/
theorem C3_amended_catch (o : Oracle) (s : BridgeState) (method : String)
    (args : Args) (hres : s.resolve = true) :
    (∀ e s2 tr,
      dispatchMethod o (refreshCurrentObjects o s) method args =
        (.error e, s2, tr) →
      callApi true o s method args =
        (.error ("API call failed: " ++ e), s2, tr)) ∧
    (∀ r s2 tr,
      dispatchMethod o (refreshCurrentObjects o s) method args =
        (.ok r, s2, tr) →
      callApi true o s method args = (r, s2, tr)) := by
  constructor <;> intro x s2 tr h <;> simp [callApi, hres, h]

/-- Concrete instantiation of `C3_amended_catch`: a raising `SaveProject`
is converted into the `API call failed` error dict. -/
theorem C3_amended_witness :
    callApi true saveRaiseOracle freshState "project_save" emptyArgs =
      (.error "API call failed: boom", freshState, [.saveProject]) :=
  (C3_amended_catch saveRaiseOracle freshState "project_save" emptyArgs
    rfl).1 "boom" freshState [.saveProject] rfl

/-! ### C4 -/

/-- A method in the `timeline_` group is not in the `project_` group. -/
theorem sw_t_not_p (m : String) (h : startswith m "timeline_" = true) :
    startswith m "project_" = false :=
  startswith_disjoint (a := 't') (u := ['i', 'm', 'e', 'l', 'i', 'n', 'e', '_'])
    (b := 'p') (v := ['r', 'o', 'j', 'e', 'c', 't', '_']) rfl rfl (by decide) h

/-- A method in the `media_` group is not in the `project_` group. -/
theorem sw_m_not_p (m : String) (h : startswith m "media_" = true) :
    startswith m "project_" = false :=
  startswith_disjoint (a := 'm') (u := ['e', 'd', 'i', 'a', '_'])
    (b := 'p') (v := ['r', 'o', 'j', 'e', 'c', 't', '_']) rfl rfl (by decide) h

/-- A method in the `media_` group is not in the `timeline_` group. -/
theorem sw_m_not_t (m : String) (h : startswith m "media_" = true) :
    startswith m "timeline_" = false :=
  startswith_disjoint (a := 'm') (u := ['e', 'd', 'i', 'a', '_'])
    (b := 't') (v := ['i', 'm', 'e', 'l', 'i', 'n', 'e', '_']) rfl rfl (by decide) h

/-- A method in the `color_` group is not in the `project_` group. -/
theorem sw_c_not_p (m : String) (h : startswith m "color_" = true) :
    startswith m "project_" = false :=
  startswith_disjoint (a := 'c') (u := ['o', 'l', 'o', 'r', '_'])
    (b := 'p') (v := ['r', 'o', 'j', 'e', 'c', 't', '_']) rfl rfl (by decide) h

/-- A method in the `color_` group is not in the `timeline_` group. -/
theorem sw_c_not_t (m : String) (h : startswith m "color_" = true) :
    startswith m "timeline_" = false :=
  startswith_disjoint (a := 'c') (u := ['o', 'l', 'o', 'r', '_'])
    (b := 't') (v := ['i', 'm', 'e', 'l', 'i', 'n', 'e', '_']) rfl rfl (by decide) h

/-- A method in the `color_` group is not in the `media_` group. -/
theorem sw_c_not_m (m : String) (h : startswith m "color_" = true) :
    startswith m "media_" = false :=
  startswith_disjoint (a := 'c') (u := ['o', 'l', 'o', 'r', '_'])
    (b := 'm') (v := ['e', 'd', 'i', 'a', '_']) rfl rfl (by decide) h

/-- A method in the `render_` group is not in the `project_` group. -/
theorem sw_r_not_p (m : String) (h : startswith m "render_" = true) :
    startswith m "project_" = false :=
  startswith_disjoint (a := 'r') (u := ['e', 'n', 'd', 'e', 'r', '_'])
    (b := 'p') (v := ['r', 'o', 'j', 'e', 'c', 't', '_']) rfl rfl (by decide) h

/-- A method in the `render_` group is not in the `timeline_` group. -/
theorem sw_r_not_t (m : String) (h : startswith m "render_" = true) :
    startswith m "timeline_" = false :=
  startswith_disjoint (a := 'r') (u := ['e', 'n', 'd', 'e', 'r', '_'])
    (b := 't') (v := ['i', 'm', 'e', 'l', 'i', 'n', 'e', '_']) rfl rfl (by decide) h

/-- A method in the `render_` group is not in the `media_` group. -/
theorem sw_r_not_m (m : String) (h : startswith m "render_" = true) :
    startswith m "media_" = false :=
  startswith_disjoint (a := 'r') (u := ['e', 'n', 'd', 'e', 'r', '_'])
    (b := 'm') (v := ['e', 'd', 'i', 'a', '_']) rfl rfl (by decide) h

/-- A method in the `render_` group is not in the `color_` group. -/
theorem sw_r_not_c (m : String) (h : startswith m "render_" = true) :
    startswith m "color_" = false :=
  startswith_disjoint (a := 'r') (u := ['e', 'n', 'd', 'e', 'r', '_'])
    (b := 'c') (v := ['o', 'l', 'o', 'r', '_']) rfl rfl (by decide) h

/-- Claim C4: routing selects exactly one handler group for every method
string — `dispatchMethod` is a total function; each of the four general
methods routes to the general handler, each `project_` / `timeline_` /
`media_` / `color_` / `render_` method routes to its group's handler
(the prefixes are mutually exclusive, their first characters differing),
and a method matching no rule yields the `Unknown general method` error
dict, never an exception. -/
theorem C4_routing (o : Oracle) (s : BridgeState) (method : String)
    (args : Args) :
    (method = "is_running" ∨ method = "get_current_project_name" ∨
     method = "get_timelines" ∨ method = "switch_page" →
      dispatchMethod o s method args = handleGeneralMethod o s method args) ∧
    (startswith method "project_" = true →
      dispatchMethod o s method args = handleProjectMethod o s method args) ∧
    (startswith method "timeline_" = true →
      dispatchMethod o s method args = handleTimelineMethod o s method args) ∧
    (startswith method "media_" = true →
      dispatchMethod o s method args = handleMediaMethod o s method args) ∧
    (startswith method "color_" = true →
      dispatchMethod o s method args = handleColorMethod o s method args) ∧
    (startswith method "render_" = true →
      dispatchMethod o s method args = handleRenderMethod o s method args) ∧
    (method ≠ "is_running" → method ≠ "get_current_project_name" →
     method ≠ "get_timelines" → method ≠ "switch_page" →
     startswith method "project_" = false →
     startswith method "timeline_" = false →
     startswith method "media_" = false →
     startswith method "color_" = false →
     startswith method "render_" = false →
      dispatchMethod o s method args =
        (.ok (.error ("Unknown general method: " ++ method)), s, [])) := by
  refine ⟨fun h => ?_, fun h => ?_, fun h => ?_, fun h => ?_, fun h => ?_,
    fun h => ?_, fun h1 h2 h3 h4 h5 h6 h7 h8 h9 => ?_⟩
  · rcases h with h | h | h | h <;> subst h <;> rfl
  · simp [dispatchMethod, h]
  · simp [dispatchMethod, h, sw_t_not_p method h]
  · simp [dispatchMethod, h, sw_m_not_p method h, sw_m_not_t method h]
  · simp [dispatchMethod, h, sw_c_not_p method h, sw_c_not_t method h,
      sw_c_not_m method h]
  · simp [dispatchMethod, h, sw_r_not_p method h, sw_r_not_t method h,
      sw_r_not_m method h, sw_r_not_c method h]
  · simp [dispatchMethod, h5, h6, h7, h8, h9, handleGeneralMethod,
      h1, h2, h3, h4]

/-- Concrete instantiation of `C4_routing`: an unroutable method produces
the method-not-found error dict. -/
theorem C4_routing_witness :
    dispatchMethod inertOracle freshState "bogus" emptyArgs =
      (.ok (.error "Unknown general method: bogus"), freshState, []) :=
  (C4_routing inertOracle freshState "bogus" emptyArgs).2.2.2.2.2.2
    (by decide) (by decide) (by decide) (by decide)
    rfl rfl rfl rfl rfl

/-! ### C5 -/

/-- External application with project 1 open and two timelines: index 1 is
handle 11 named `A`, index 2 is handle 12 named `B`; set-current and
delete report success. -/
def tlOracle : Oracle :=
  { inertOracle with
      getCurrentProject := .ok (some 1)
      getMediaPool := fun _ => .ok (some 1)
      getCurrentTimeline := fun _ => .ok (some 11)
      getTimelineCount := fun _ => .ok 2
      getTimelineByIndex := fun _ i =>
        .ok (if i = 1 then some 11 else if i = 2 then some 12 else none)
      tlGetName := fun t => .ok (if t = 11 then "A" else "B")
      setCurrentTimeline := fun _ _ => .ok true
      deleteTimeline := fun _ _ => .ok true }

/-- Claim C5: `timeline_set_current(name)` scans the current project's
timelines by 1-based index (`scanTimelines` over `List.range' 1 count`)
with exact case-sensitive comparison; it updates `current_timeline` to the
matched handle exactly when the external set-current call reports success;
with no project, no match, or a failure report, the state is unchanged
(and `current_project` / `current_media_pool` are never touched). -/
theorem C5_timeline_set_current (o : Oracle) (s : BridgeState)
    (name : String) (args : Args) (hargs : args "name" = some name) :
    (s.project = none →
      handleTimelineMethod o s "timeline_set_current" args =
        (.ok (.error ("Timeline '" ++ name ++ "' not found")), s, [])) ∧
    (∀ p count, s.project = some p → o.getTimelineCount p = .ok count →
      (scanTimelines o p name (List.range' 1 count) = .ok none →
        handleTimelineMethod o s "timeline_set_current" args =
          (.ok (.error ("Timeline '" ++ name ++ "' not found")), s, [])) ∧
      (∀ t, scanTimelines o p name (List.range' 1 count) = .ok (some t) →
        (o.setCurrentTimeline p t = .ok true →
          handleTimelineMethod o s "timeline_set_current" args =
            (.ok (.result (.bool true)), { s with timeline := some t },
             [.setCurrentTimeline p t])) ∧
        (o.setCurrentTimeline p t = .ok false →
          handleTimelineMethod o s "timeline_set_current" args =
            (.ok (.result (.bool false)), s, [.setCurrentTimeline p t])))) ∧
    ((handleTimelineMethod o s "timeline_set_current" args).2.1.project
        = s.project ∧
     (handleTimelineMethod o s "timeline_set_current" args).2.1.mediaPool
        = s.mediaPool) ∧
    ((handleTimelineMethod o s "timeline_set_current" args).2.1.timeline
        ≠ s.timeline →
      ∃ p t, s.project = some p ∧ o.setCurrentTimeline p t = .ok true ∧
        (handleTimelineMethod o s "timeline_set_current" args).1 =
          .ok (.result (.bool true)) ∧
        (handleTimelineMethod o s "timeline_set_current" args).2.1.timeline
          = some t) := by
  refine ⟨fun hp => ?_, fun p count hp hcnt => ⟨fun hscan => ?_, fun t hscan => ⟨fun hset => ?_, fun hset => ?_⟩⟩, ?_, fun hneq => ?_⟩
  · simp [handleTimelineMethod, hargs, hp]
  · simp [handleTimelineMethod, hargs, hp, hcnt, hscan]
  · simp [handleTimelineMethod, hargs, hp, hcnt, hscan, hset]
  · simp [handleTimelineMethod, hargs, hp, hcnt, hscan, hset]
  · rcases hp : s.project with _ | p
    · simp [handleTimelineMethod, hargs, hp]
    · rcases hcnt : o.getTimelineCount p with e | count
      · simp [handleTimelineMethod, hargs, hp, hcnt]
      · rcases hscan : scanTimelines o p name (List.range' 1 count) with e | op
        · simp [handleTimelineMethod, hargs, hp, hcnt, hscan]
        · rcases op with _ | t
          · simp [handleTimelineMethod, hargs, hp, hcnt, hscan]
          · rcases hset : o.setCurrentTimeline p t with e | b
            · simp [handleTimelineMethod, hargs, hp, hcnt, hscan, hset]
            · cases b <;>
                simp [handleTimelineMethod, hargs, hp, hcnt, hscan, hset]
  · rcases hp : s.project with _ | p
    · exact absurd (by simp [handleTimelineMethod, hargs, hp]) hneq
    · rcases hcnt : o.getTimelineCount p with e | count
      · exact absurd (by simp [handleTimelineMethod, hargs, hp, hcnt]) hneq
      · rcases hscan : scanTimelines o p name (List.range' 1 count) with e | op
        · exact absurd (by simp [handleTimelineMethod, hargs, hp, hcnt, hscan]) hneq
        · rcases op with _ | t
          · exact absurd
              (by simp [handleTimelineMethod, hargs, hp, hcnt, hscan]) hneq
          · rcases hset : o.setCurrentTimeline p t with e | b
            · exact absurd
                (by simp [handleTimelineMethod, hargs, hp, hcnt, hscan, hset])
                hneq
            · cases b
              · exact absurd
                  (by simp [handleTimelineMethod, hargs, hp, hcnt, hscan, hset])
                  hneq
              · exact ⟨p, t, rfl, hset,
                  by simp [handleTimelineMethod, hargs, hp, hcnt, hscan, hset],
                  by simp [handleTimelineMethod, hargs, hp, hcnt, hscan, hset]⟩

/-- Concrete instantiation of `C5_timeline_set_current`: setting `B`
current succeeds and updates the cached timeline to handle 12. -/
theorem C5_witness :
    handleTimelineMethod tlOracle fullState "timeline_set_current"
      (nameArgs "B") =
      (.ok (.result (.bool true)), { fullState with timeline := some 12 },
       [.setCurrentTimeline 1 12]) :=
  (((C5_timeline_set_current tlOracle fullState "B" (nameArgs "B")
    rfl).2.1 1 2 rfl rfl).2 12 rfl).1 rfl

/-! ### C6 -/

/-- Index `i` yields no name match: the timeline there is falsy, or its
name differs from the one sought. -/
def NoMatchAt (o : Oracle) (p : ProjRef) (name : String) (i : Nat) : Prop :=
  o.getTimelineByIndex p i = .ok none ∨
  ∃ u n, o.getTimelineByIndex p i = .ok (some u) ∧
    o.tlGetName u = .ok n ∧ n ≠ name

/-- The scan skips over a block of non-matching indices. -/
theorem scanTimelines_skip (o : Oracle) (p : ProjRef) (name : String) :
    ∀ l₁ l₂, (∀ j ∈ l₁, NoMatchAt o p name j) →
      scanTimelines o p name (l₁ ++ l₂) = scanTimelines o p name l₂ := by
  intro l₁
  induction l₁ with
  | nil => intro l₂ _; rfl
  | cons i rest ih =>
    intro l₂ h
    have hi := h i (by simp)
    have hrest : ∀ j ∈ rest, NoMatchAt o p name j :=
      fun j hj => h j (by simp [hj])
    rcases hi with hnone | ⟨u, n, hu, hn, hne⟩
    · simpa [scanTimelines, hnone] using ih l₂ hrest
    · simpa [scanTimelines, hu, hn, hne] using ih l₂ hrest

/-- On an all-non-matching index list the scan reports no match. -/
theorem scanTimelines_none (o : Oracle) (p : ProjRef) (name : String)
    (l : List Nat) (h : ∀ j ∈ l, NoMatchAt o p name j) :
    scanTimelines o p name l = .ok none := by
  have := scanTimelines_skip o p name l [] h
  simpa [scanTimelines] using this

/-- Claim C6: `timeline_delete(name)` scans indices `1..count` (inclusive)
in order; with no open project or no matching timeline it returns the
not-found error and issues no delete; when the index list splits as
`l₁ ++ i :: l₂` with no match in `l₁` and a timeline `t` named `name` at
`i`, exactly one external delete — of `t`, the lowest-index match — is
issued, whatever duplicates `l₂` may hold, and the external call's report
is returned as the result. -/
theorem C6_timeline_delete (o : Oracle) (s : BridgeState) (name : String)
    (args : Args) (hargs : args "name" = some name) :
    (s.project = none →
      handleTimelineMethod o s "timeline_delete" args =
        (.ok (.error ("Timeline '" ++ name ++ "' not found")), s, [])) ∧
    (∀ p count, s.project = some p → o.getTimelineCount p = .ok count →
      ((∀ j ∈ List.range' 1 count, NoMatchAt o p name j) →
        handleTimelineMethod o s "timeline_delete" args =
          (.ok (.error ("Timeline '" ++ name ++ "' not found")), s, [])) ∧
      (∀ l₁ i l₂ t b, List.range' 1 count = l₁ ++ i :: l₂ →
        (∀ j ∈ l₁, NoMatchAt o p name j) →
        o.getTimelineByIndex p i = .ok (some t) →
        o.tlGetName t = .ok name →
        o.deleteTimeline p t = .ok b →
        handleTimelineMethod o s "timeline_delete" args =
          (.ok (.result (.bool b)), s, [.deleteTimeline p t]))) := by
  refine ⟨fun hp => ?_, fun p count hp hcnt =>
    ⟨fun hall => ?_, fun l₁ i l₂ t b hsplit hskip hi hn hdel => ?_⟩⟩
  · simp [handleTimelineMethod, hargs, hp]
  · have hscan := scanTimelines_none o p name (List.range' 1 count) hall
    simp [handleTimelineMethod, hargs, hp, hcnt, hscan]
  · have hscan : scanTimelines o p name (List.range' 1 count) = .ok (some t) := by
      rw [hsplit, scanTimelines_skip o p name l₁ (i :: l₂) hskip]
      simp [scanTimelines, hi, hn]
    simp [handleTimelineMethod, hargs, hp, hcnt, hscan, hdel]

/-- External application with two timelines both named `D` (handles 21 at
index 1, 22 at index 2); delete reports success. -/
def dupOracle : Oracle :=
  { inertOracle with
      getTimelineCount := fun _ => .ok 2
      getTimelineByIndex := fun _ i =>
        .ok (if i = 1 then some 21 else if i = 2 then some 22 else none)
      tlGetName := fun _ => .ok "D"
      deleteTimeline := fun _ _ => .ok true }

/-- Concrete instantiation of `C6_timeline_delete`: with duplicates named
`D` at indices 1 and 2, only the index-1 timeline (handle 21) is
deleted. -/
theorem C6_witness :
    handleTimelineMethod dupOracle fullState "timeline_delete"
      (nameArgs "D") =
      (.ok (.result (.bool true)), fullState, [.deleteTimeline 1 21]) :=
  ((C6_timeline_delete dupOracle fullState "D" (nameArgs "D") rfl).2 1 2
    rfl rfl).2 [] 1 [2] 21 true rfl (by simp) rfl rfl rfl

/-! ### C7 -/

/-- With the guards passed, `call_api` is refresh, dispatch, and the
conversion of an escaped exception into the `API call failed` dict. -/
theorem callApi_eq (o : Oracle) (s : BridgeState) (method : String)
    (args : Args) (hres : s.resolve = true) :
    callApi true o s method args =
      match dispatchMethod o (refreshCurrentObjects o s) method args with
      | (.ok r, s2, tr) => (r, s2, tr)
      | (.error e, s2, tr) => (.error ("API call failed: " ++ e), s2, tr) := by
  simp [callApi, hres]

/-- When the current-project accessor answers `pr`, the refresh leaves
exactly `pr` in `current_project`. -/
theorem refresh_project (o : Oracle) (s : BridgeState) (pr : Option ProjRef)
    (hpm : s.projectManager = true) (h : o.getCurrentProject = .ok pr) :
    (refreshCurrentObjects o s).project = pr := by
  cases pr with
  | none => simp [refreshCurrentObjects, hpm, h]
  | some q =>
    simp only [refreshCurrentObjects, hpm, if_true, h]
    repeat' split
    all_goals rfl

/-- External application that creates project 5 with media pool 7. -/
def createOracle : Oracle :=
  { inertOracle with
      createProject := fun _ => .ok (some 5)
      getMediaPool := fun _ => .ok (some 7) }

/-- External application reporting project 5 as current, named `X`. -/
def namedOracle : Oracle :=
  { inertOracle with
      getCurrentProject := .ok (some 5)
      projGetName := fun _ => .ok "X" }

/-- Claim C7: when the external creation reports success (and the external
application, unchanged out-of-band, then reports the created project as
current under its creation name), `project_create("X")` replaces
`current_project` and `current_media_pool` immediately within the first
call, and a following `get_current_project_name` returns `"X"`. -/
theorem C7_roundtrip (o₁ o₂ : Oracle) (s : BridgeState) (name : String)
    (args₁ args₂ : Args) (p : ProjRef) (mp : Option PoolRef)
    (hres : s.resolve = true) (hpm : s.projectManager = true)
    (hargs : args₁ "name" = some name)
    (hcreate : o₁.createProject name = .ok (some p))
    (hpool : o₁.getMediaPool p = .ok mp)
    (hcur : o₂.getCurrentProject = .ok (some p))
    (hname : o₂.projGetName p = .ok name) :
    (callApi true o₁ s "project_create" args₁).1 =
      .result (.str ("Created project '" ++ name ++ "'")) ∧
    (callApi true o₁ s "project_create" args₁).2.1.project = some p ∧
    (callApi true o₁ s "project_create" args₁).2.1.mediaPool = mp ∧
    (callApi true o₂ (callApi true o₁ s "project_create" args₁).2.1
      "get_current_project_name" args₂).1 = .result (.str name) := by
  have hframe := refresh_frame o₁ s
  have hpmR : (refreshCurrentObjects o₁ s).projectManager = true :=
    hframe.2.trans hpm
  have hcall : callApi true o₁ s "project_create" args₁ =
      (.result (.str ("Created project '" ++ name ++ "'")),
       { refreshCurrentObjects o₁ s with project := some p, mediaPool := mp },
       [.createProject name]) := by
    rw [callApi_eq o₁ s "project_create" args₁ hres]
    have hd : dispatchMethod o₁ (refreshCurrentObjects o₁ s)
        "project_create" args₁ =
        handleProjectMethod o₁ (refreshCurrentObjects o₁ s)
          "project_create" args₁ := rfl
    rw [hd]
    simp [handleProjectMethod, hpmR, hargs, hcreate, hpool]
  rw [hcall]
  refine ⟨rfl, rfl, rfl, ?_⟩
  have hres2 : ({ refreshCurrentObjects o₁ s with
      project := some p, mediaPool := mp } : BridgeState).resolve = true :=
    hframe.1.trans hres
  have hpm2 : ({ refreshCurrentObjects o₁ s with
      project := some p, mediaPool := mp } : BridgeState).projectManager
      = true := hpmR
  rw [callApi_eq o₂ _ "get_current_project_name" args₂ hres2]
  have hd2 : dispatchMethod o₂
      (refreshCurrentObjects o₂ { refreshCurrentObjects o₁ s with
        project := some p, mediaPool := mp })
      "get_current_project_name" args₂ =
      handleGeneralMethod o₂
        (refreshCurrentObjects o₂ { refreshCurrentObjects o₁ s with
          project := some p, mediaPool := mp })
        "get_current_project_name" args₂ := rfl
  rw [hd2]
  have hproj2 := refresh_project o₂
    { refreshCurrentObjects o₁ s with project := some p, mediaPool := mp }
    (some p) hpm2 hcur
  simp [handleGeneralMethod, hproj2, hname]

/-- Concrete instantiation of `C7_roundtrip`. -/
theorem C7_witness :
    (callApi true createOracle freshState "project_create"
      (nameArgs "X")).1 = .result (.str "Created project 'X'") ∧
    (callApi true createOracle freshState "project_create"
      (nameArgs "X")).2.1.project = some 5 ∧
    (callApi true createOracle freshState "project_create"
      (nameArgs "X")).2.1.mediaPool = some 7 ∧
    (callApi true namedOracle
      (callApi true createOracle freshState "project_create"
        (nameArgs "X")).2.1
      "get_current_project_name" emptyArgs).1 = .result (.str "X") :=
  C7_roundtrip createOracle namedOracle freshState "X" (nameArgs "X")
    emptyArgs 5 (some 7) rfl rfl rfl rfl rfl rfl rfl

/-! ### C8 -/

/-- Refreshing twice against an unchanged external application is the same
as refreshing once. -/
theorem refresh_idem (o : Oracle) (s : BridgeState) :
    refreshCurrentObjects o (refreshCurrentObjects o s) =
      refreshCurrentObjects o s := by
  by_cases hpm : s.projectManager = true
  · rcases hc : o.getCurrentProject with e | pr
    · have h1 : refreshCurrentObjects o s = s := by
        simp [refreshCurrentObjects, hpm, hc]
      rw [h1]; exact h1
    · cases pr with
      | none =>
        have h1 : refreshCurrentObjects o s = { s with project := none } := by
          simp [refreshCurrentObjects, hpm, hc]
        rw [h1]
        simp [refreshCurrentObjects, hpm, hc]
      | some q =>
        rcases hmp : o.getMediaPool q with e | mp
        · have h1 : refreshCurrentObjects o s =
              { s with project := some q } := by
            simp [refreshCurrentObjects, hpm, hc, hmp]
          rw [h1]
          simp [refreshCurrentObjects, hpm, hc, hmp]
        · rcases htl : o.getCurrentTimeline q with e | tl
          · have h1 : refreshCurrentObjects o s =
                { s with project := some q, mediaPool := mp } := by
              simp [refreshCurrentObjects, hpm, hc, hmp, htl]
            rw [h1]
            simp [refreshCurrentObjects, hpm, hc, hmp, htl]
          · have h1 : refreshCurrentObjects o s =
                { s with project := some q, mediaPool := mp, timeline := tl } := by
              simp [refreshCurrentObjects, hpm, hc, hmp, htl]
            rw [h1]
            simp [refreshCurrentObjects, hpm, hc, hmp, htl]
  · have h1 : refreshCurrentObjects o s = s := by
      simp [refreshCurrentObjects, hpm]
    rw [h1]; exact h1

/-- The value `get_timelines` produces from a given cached project. -/
def gtResult (o : Oracle) : Option ProjRef → APIResult
  | none => .result (.list [])
  | some p =>
    match o.getTimelineCount p with
    | .error e => .error ("API call failed: " ++ e)
    | .ok count =>
      match collectTimelines o p (List.range' 1 count) with
      | .error e => .error ("API call failed: " ++ e)
      | .ok names => .result (.list names)

/-- A `get_timelines` call computes `gtResult` of the refreshed project,
mutates nothing beyond the refresh, and issues no external mutation. -/
theorem callApi_get_timelines (o : Oracle) (s : BridgeState) (a : Args)
    (hres : s.resolve = true) :
    callApi true o s "get_timelines" a =
      (gtResult o (refreshCurrentObjects o s).project,
       refreshCurrentObjects o s, []) := by
  rw [callApi_eq o s "get_timelines" a hres]
  have hd : dispatchMethod o (refreshCurrentObjects o s) "get_timelines" a =
      handleGeneralMethod o (refreshCurrentObjects o s) "get_timelines" a :=
    rfl
  rw [hd]
  rcases hproj : (refreshCurrentObjects o s).project with _ | p
  · simp [handleGeneralMethod, gtResult, hproj]
  · rcases hcnt : o.getTimelineCount p with e | count
    · simp [handleGeneralMethod, gtResult, hproj, hcnt]
    · rcases hcol : collectTimelines o p (List.range' 1 count) with e | ns
      · simp [handleGeneralMethod, gtResult, hproj, hcnt, hcol]
      · simp [handleGeneralMethod, gtResult, hproj, hcnt, hcol]

/-- Claim C8: two consecutive `get_timelines` calls against an unchanged
external application (same oracle, no intervening call) return the same
result — in particular the same ordered name list. -/
theorem C8_get_timelines_idempotent (avail : Bool) (o : Oracle)
    (s : BridgeState) (args₁ args₂ : Args) :
    (callApi avail o s "get_timelines" args₁).1 =
    (callApi avail o (callApi avail o s "get_timelines" args₁).2.1
      "get_timelines" args₂).1 := by
  cases avail with
  | false => simp [callApi]
  | true =>
    by_cases hres : s.resolve = true
    · rw [callApi_get_timelines o s args₁ hres]
      have hproj : (gtResult o (refreshCurrentObjects o s).project,
          refreshCurrentObjects o s, ([] : List ExtCall)).2.1 =
          refreshCurrentObjects o s := rfl
      rw [hproj]
      have hres2 : (refreshCurrentObjects o s).resolve = true :=
        (refresh_frame o s).1.trans hres
      rw [callApi_get_timelines o (refreshCurrentObjects o s) args₂ hres2,
        refresh_idem o s]
    · simp [callApi, hres]

/-! ### C9 -/

/-- Claim C9: `project_create` and `project_open` never touch
`current_timeline` (nor the resolve / project-manager handles); on a
reported success the state is exactly the old one with `current_project`
and `current_media_pool` replaced. -/
theorem C9_project_switch_frame (o : Oracle) (s : BridgeState)
    (method : String) (args : Args)
    (h : method = "project_create" ∨ method = "project_open") :
    ((handleProjectMethod o s method args).2.1.timeline = s.timeline ∧
     (handleProjectMethod o s method args).2.1.resolve = s.resolve ∧
     (handleProjectMethod o s method args).2.1.projectManager
        = s.projectManager) ∧
    (∀ v, (handleProjectMethod o s method args).1 = .ok (.result v) →
      ∃ p mp, (handleProjectMethod o s method args).2.1 =
        { s with project := some p, mediaPool := mp }) := by
  rcases h with h | h <;> subst h
  · by_cases hpm : s.projectManager = true
    · rcases hc : o.createProject ((args "name").getD "") with e | op
      · exact ⟨by simp [handleProjectMethod, hpm, hc],
          fun v hv => absurd hv (by simp [handleProjectMethod, hpm, hc])⟩
      · rcases op with _ | p
        · exact ⟨by simp [handleProjectMethod, hpm, hc],
            fun v hv => absurd hv (by simp [handleProjectMethod, hpm, hc])⟩
        · rcases hmp : o.getMediaPool p with e | mp
          · exact ⟨by simp [handleProjectMethod, hpm, hc, hmp],
              fun v hv =>
                absurd hv (by simp [handleProjectMethod, hpm, hc, hmp])⟩
          · exact ⟨by simp [handleProjectMethod, hpm, hc, hmp],
              fun v _ =>
                ⟨p, mp, by simp [handleProjectMethod, hpm, hc, hmp]⟩⟩
    · exact ⟨by simp [handleProjectMethod, hpm],
        fun v hv => absurd hv (by simp [handleProjectMethod, hpm])⟩
  · by_cases hpm : s.projectManager = true
    · rcases hc : o.loadProject ((args "name").getD "") with e | op
      · exact ⟨by simp [handleProjectMethod, hpm, hc],
          fun v hv => absurd hv (by simp [handleProjectMethod, hpm, hc])⟩
      · rcases op with _ | p
        · exact ⟨by simp [handleProjectMethod, hpm, hc],
            fun v hv => absurd hv (by simp [handleProjectMethod, hpm, hc])⟩
        · rcases hmp : o.getMediaPool p with e | mp
          · exact ⟨by simp [handleProjectMethod, hpm, hc, hmp],
              fun v hv =>
                absurd hv (by simp [handleProjectMethod, hpm, hc, hmp])⟩
          · exact ⟨by simp [handleProjectMethod, hpm, hc, hmp],
              fun v _ =>
                ⟨p, mp, by simp [handleProjectMethod, hpm, hc, hmp]⟩⟩
    · exact ⟨by simp [handleProjectMethod, hpm],
        fun v hv => absurd hv (by simp [handleProjectMethod, hpm])⟩

/-- Concrete instantiation of `C9_project_switch_frame`. -/
theorem C9_witness :
    ∃ p mp,
      (handleProjectMethod createOracle fullState "project_create"
        (nameArgs "X")).2.1 =
        { fullState with project := some p, mediaPool := mp } :=
  (C9_project_switch_frame createOracle fullState "project_create"
    (nameArgs "X") (Or.inl rfl)).2 (.str "Created project 'X'") rfl

/-! ### C10 -/

/-- Claim C10: through `call_api`, `is_running` can never return the
successful result `False`: when the application handle is absent the
pre-dispatch guard returns the `not running` error dict instead, so any
`{"result": ...}` outcome of `is_running` carries `True`. -/
theorem C10_is_running (avail : Bool) (o : Oracle) (s : BridgeState)
    (args : Args) (v : Value) (s2 : BridgeState) (tr : List ExtCall)
    (h : callApi avail o s "is_running" args = (.result v, s2, tr)) :
    v = .bool true := by
  cases avail with
  | false => simp [callApi] at h
  | true =>
    by_cases hres : s.resolve = true
    · rw [callApi_eq o s "is_running" args hres] at h
      have hd : dispatchMethod o (refreshCurrentObjects o s)
          "is_running" args =
          handleGeneralMethod o (refreshCurrentObjects o s)
            "is_running" args := rfl
      rw [hd] at h
      have hres2 : (refreshCurrentObjects o s).resolve = true :=
        (refresh_frame o s).1.trans hres
      simp [handleGeneralMethod, hres2] at h
      exact h.1.symm
    · simp [callApi, hres] at h

/-- Concrete instantiation of `C10_is_running`. -/
theorem C10_witness : Value.bool true = Value.bool true :=
  C10_is_running true projOracle freshState emptyArgs (.bool true)
    fullState [] rfl

end ResolveBridge
